import Mathlib

/-!
Shallow embedding of the authentication/session/token subsystem of the
DTC FastAPI server (`app/services/auth_service.py`, `app/core/security.py`,
`app/models/user.py`, `app/models/session.py`, `app/models/token.py`).

Modelling conventions:
* Wall-clock time is a `Nat` counting seconds; `timedelta(minutes=m)` is
  `m * 60`, `timedelta(days=d)` is `d * 86400`.  Each operation receives the
  current time `now` explicitly (the Python code calls `datetime.utcnow()`).
* A JWT is modelled structurally: `jwt.encode` is injective on the payload for
  a fixed key, so a token is its payload plus the key it was signed with;
  `jwt.decode` succeeds exactly when the key matches the configured secret and
  the `exp` claim is not in the past (python-jose raises `JWTError` /
  `ExpiredSignatureError` otherwise, which the service catches).
* bcrypt hashing is idealised as collision-free: a hash records the effective
  digest input (the password bytes actually fed to bcrypt) and the salt.
  The passlib/bcrypt backend truncates its input to 72 bytes; the service code
  additionally truncates to 72 characters before hashing.  Passwords are
  `List Char` (Python `str`), encoded to bytes with UTF-8.
* MongoDB collections are lists; `find_one` is `List.find?` (first match),
  `update_one` updates the first match, `update_many` all matches,
  `insert_one` appends.  Randomly generated values (`secrets.token_hex`,
  `ObjectId()`, the bcrypt salt) are passed in as explicit parameters.
* Each service operation also returns the ordered list of store-side effects
  it performed (`DbEvent`), used to state ordering properties.  Exceptions
  (`HTTPException`) become an `Except` result alongside the updated store.
-/

namespace Auth

/-- Relevant fields of `app/core/config.py::Settings`. -/
structure Settings where
  APP_NAME : String
  SECRET_KEY : Nat
  ACCESS_TOKEN_EXPIRE_MINUTES : Nat
  REFRESH_TOKEN_EXPIRE_DAYS : Nat
  REFRESH_TOKEN_EXPIRE_DAYS_LONG : Nat
deriving DecidableEq, Repr

/-- UTF-8 encoding of a single code point (1 to 4 bytes). -/
def utf8Char (c : Char) : List Nat :=
  if c.toNat < 0x80 then
    [c.toNat]
  else if c.toNat < 0x800 then
    [0xC0 ||| (c.toNat >>> 6), 0x80 ||| (c.toNat &&& 0x3F)]
  else if c.toNat < 0x10000 then
    [0xE0 ||| (c.toNat >>> 12), 0x80 ||| ((c.toNat >>> 6) &&& 0x3F),
     0x80 ||| (c.toNat &&& 0x3F)]
  else
    [0xF0 ||| (c.toNat >>> 18), 0x80 ||| ((c.toNat >>> 12) &&& 0x3F),
     0x80 ||| ((c.toNat >>> 6) &&& 0x3F), 0x80 ||| (c.toNat &&& 0x3F)]

/-- UTF-8 encoding of a Python string (list of code points) as a byte list. -/
def utf8 (s : List Char) : List Nat :=
  (s.map utf8Char).flatten

/-- An idealised bcrypt hash: the effective digest input together with the
salt.  Two hashes are equal iff bcrypt was fed the same bytes with the same
salt (collision-freeness idealisation). -/
structure BHash where
  input : List Nat
  salt : Nat
deriving DecidableEq, Repr

/-- The passlib/bcrypt backend: hashing feeds bcrypt at most the first
72 bytes of the UTF-8 encoded password (the backend silently truncates
longer inputs — library behaviour, outside `src/`). -/
def bcryptHash (password : List Char) (salt : Nat) : BHash :=
  { input := (utf8 password).take 72, salt := salt }

/-- The passlib/bcrypt backend's verify: compares bcrypt over the (byte-level
truncated) candidate against the stored digest, salt taken from the hash. -/
def bcryptVerify (password : List Char) (h : BHash) : Bool :=
  (utf8 password).take 72 == h.input

/-- Model of `AuthService.get_password_hash` (`auth_service.py:82`): truncates the
password to its first 72 characters when longer, then hashes. -/
def get_password_hash (password : List Char) (salt : Nat) : BHash :=
  bcryptHash (if password.length > 72 then password.take 72 else password) salt

/-- Model of `AuthService.verify_password` (`auth_service.py:79`): delegates to the
bcrypt backend without any character-level truncation. -/
def verify_password (plain : List Char) (h : BHash) : Bool :=
  bcryptVerify plain h

/-- Model of `app/models/token.py::TokenType`. -/
inductive TokenType where
  | access
  | refresh
  | password_reset
  | email_verification
  | two_factor
deriving DecidableEq, Repr

/-- Model of `app/models/session.py::SessionStatus`. -/
inductive SessionStatus where
  | active
  | expired
  | revoked
  | suspicious
deriving DecidableEq, Repr

/-- Model of `app/models/session.py::SessionPlatform`. -/
inductive SessionPlatform where
  | web
  | ios
  | android
  | desktop
deriving DecidableEq, Repr

/-- A signed JWT, modelled as its claims plus the signing key
(see module header).  `typ` is the `"type"` claim, `jti` the token id. -/
structure Token where
  sub : String
  typ : String
  jti : String
  exp : Nat
  iat : Nat
  iss : String
  key : Nat
deriving DecidableEq, Repr

/-- Stored user document (`app/models/user.py::UserInDB`, fields used by the
authentication service). -/
structure StoredUser where
  id : String
  email : String
  username : Option String
  fullName : Option String
  avatarUrl : Option String
  role : String
  status : String
  hashedPassword : BHash
  isActive : Bool
  emailVerified : Bool
  lastLogin : Option Nat
  loginCount : Nat
  createdAt : Nat
  updatedAt : Nat
deriving DecidableEq, Repr

/-- Stored session document (`app/models/session.py::UserSession`).
`sessionToken` is the JTI of the current refresh token. -/
structure Session where
  id : Nat
  userId : String
  sessionToken : String
  refreshToken : Token
  userAgent : String
  ipAddress : Option String
  platform : SessionPlatform
  deviceId : Option String
  deviceName : Option String
  status : SessionStatus
  lastActive : Nat
  expiresAt : Nat
  createdAt : Nat
deriving DecidableEq, Repr

/-- Stored blacklist document (`app/models/token.py::TokenBlacklist`). -/
structure BlacklistEntry where
  token : Token
  tokenType : TokenType
  userId : Option String
  expiresAt : Nat
  blacklistedAt : Nat
deriving DecidableEq, Repr

/-- The three MongoDB collections the authentication service touches. -/
structure DB where
  users : List StoredUser
  sessions : List Session
  tokenBlacklist : List BlacklistEntry
deriving DecidableEq, Repr

/-- Model of `HTTPException(status_code, detail)`. -/
structure HTTPException where
  statusCode : Nat
  detail : String
deriving DecidableEq, Repr

/-- Ordered log of store-side effects performed by one service operation.
`sessionRevoked`/`sessionRotated`/`sessionExpired` record the session's
stored refresh token at the moment its state changed. -/
inductive DbEvent where
  | blacklistInsert (tok : Token)
  | sessionInsert (sid : Nat)
  | sessionExpired (sid : Nat) (refreshTok : Token)
  | sessionRevoked (sid : Nat) (refreshTok : Token)
  | sessionRotated (sid : Nat) (oldRefreshTok newRefreshTok : Token)
  | userWrite (uid : String)
deriving DecidableEq, Repr

instance {ε α : Type} [DecidableEq ε] [DecidableEq α] : DecidableEq (Except ε α) := fun a b =>
  match a, b with
  | .ok x, .ok y =>
    if h : x = y then .isTrue (by rw [h]) else .isFalse (by intro hc; cases hc; exact h rfl)
  | .error x, .error y =>
    if h : x = y then .isTrue (by rw [h]) else .isFalse (by intro hc; cases hc; exact h rfl)
  | .ok _, .error _ => .isFalse (by intro hc; cases hc)
  | .error _, .ok _ => .isFalse (by intro hc; cases hc)

/-- Result of a service operation: updated store, ordered effect log, and the
returned value or raised `HTTPException`. -/
structure OpResult (α : Type) where
  db : DB
  events : List DbEvent
  result : Except HTTPException α
deriving DecidableEq, Repr

/-- Mongo `update_one`: rewrite the first document matching the filter. -/
def updateFirst (p : α → Bool) (f : α → α) : List α → List α
  | [] => []
  | x :: xs => if p x then f x :: xs else x :: updateFirst p f xs

/-- Mongo `update_many`: rewrite every document matching the filter. -/
def updateMany (p : α → Bool) (f : α → α) (l : List α) : List α :=
  l.map fun x => if p x then f x else x

/-- Python truthiness of an optional string (`None` and `""` are falsy). -/
def optTruthy : Option String → Bool
  | none => false
  | some s => !(s == "")

/-- Model of `jwt.decode(token, settings.SECRET_KEY, ...)`: returns the claims when
the signature matches the secret and the `exp` claim is not in the past;
otherwise python-jose raises a `JWTError`, modelled as `none`. -/
def jwtDecode (st : Settings) (now : Nat) (t : Token) : Option Token :=
  if t.key = st.SECRET_KEY ∧ now ≤ t.exp then some t else none

/-- Model of `AuthService._create_token` (`auth_service.py:222`). -/
def createToken (st : Settings) (now : Nat) (sub typ jti : String)
    (expiresDelta : Nat) : Token :=
  { sub := sub, typ := typ, jti := jti, exp := now + expiresDelta, iat := now,
    iss := st.APP_NAME, key := st.SECRET_KEY }

/-- Model of `AuthService.create_tokens` (`auth_service.py:189`): a fresh random JTI
(`secrets.token_hex(32)`) is passed in as `jti`; the access token uses the
short TTL, the refresh token the 7-day or 30-day TTL depending on
`remember_me`; both share the JTI. -/
def create_tokens (st : Settings) (now : Nat) (userId : String)
    (rememberMe : Bool) (jti : String) : Token × Token × String :=
  let accessToken := createToken st now userId "access" jti
    (st.ACCESS_TOKEN_EXPIRE_MINUTES * 60)
  let refreshExpire :=
    if rememberMe then st.REFRESH_TOKEN_EXPIRE_DAYS_LONG * 86400
    else st.REFRESH_TOKEN_EXPIRE_DAYS * 86400
  let refreshToken := createToken st now userId "refresh" jti refreshExpire
  (accessToken, refreshToken, jti)

/-- Model of `AuthService.verify_token` (`auth_service.py:236`): decode (signature and
expiry), check the `type` claim, then reject any token present in the
`token_blacklist` collection.  Total: every failure is `none`, never an
exception (the `JWTError` is caught in the source). -/
def verify_token (st : Settings) (db : DB) (now : Nat) (token : Token)
    (tokenType : String) : Option Token :=
  match jwtDecode st now token with
  | none => none
  | some payload =>
    if payload.typ ≠ tokenType then none
    else if (db.tokenBlacklist.find? fun e => e.token == token).isSome then none
    else some payload

/-- The blacklist document built by `AuthService.blacklist_token`
(`auth_service.py:323`): expiry copied from the token when it still decodes,
otherwise one day from now (the bare `except` fallback). -/
def blacklistEntryFor (st : Settings) (now : Nat) (token : Token)
    (tokenType : TokenType) (userId : Option String) : BlacklistEntry :=
  let expiresAt :=
    match jwtDecode st now token with
    | some payload => payload.exp
    | none => now + 86400
  { token := token, tokenType := tokenType, userId := userId,
    expiresAt := expiresAt, blacklistedAt := now }

/-- Model of `AuthService.blacklist_token` (`auth_service.py:323`): insert one
blacklist document. -/
def blacklist_token (st : Settings) (db : DB) (now : Nat) (token : Token)
    (tokenType : TokenType) (userId : Option String) : DB × List DbEvent :=
  ({ db with tokenBlacklist :=
      db.tokenBlacklist ++ [blacklistEntryFor st now token tokenType userId] },
   [DbEvent.blacklistInsert token])

/-- The `for session in sessions: await self.blacklist_token(...)` loop used
by `logout(logout_all=True)` and `revoke_all_sessions`. -/
def blacklistLoop (st : Settings) (now : Nat) (userId : String) (db : DB) :
    List Session → DB × List DbEvent
  | [] => (db, [])
  | s :: rest =>
    let (db1, evs1) := blacklist_token st db now s.refreshToken TokenType.refresh (some userId)
    let (db2, evs2) := blacklistLoop st now userId db1 rest
    (db2, evs1 ++ evs2)

/-- Model of `AuthService.get_user_by_email` (`auth_service.py:59`). -/
def get_user_by_email (db : DB) (email : String) : Option StoredUser :=
  db.users.find? fun u => u.email == email

/-- Model of `AuthService.get_user_by_id` (`auth_service.py:67`).  ObjectId parsing is
not modelled (ids are opaque strings); the `except: return None` branch is
unreachable in the model. -/
def get_user_by_id (db : DB) (userId : String) : Option StoredUser :=
  db.users.find? fun u => u.id == userId

/-- Filter used by `AuthService.revoke_all_sessions` (`auth_service.py:382`):
active sessions of the user, minus the current one only when
`exclude_current` is set AND a truthy `current_jti` was supplied. -/
def revokeAllQuery (userId : String) (excludeCurrent : Bool)
    (currentJti : Option String) (s : Session) : Bool :=
  s.userId == userId && s.status == SessionStatus.active &&
    (if excludeCurrent && optTruthy currentJti
     then s.sessionToken != currentJti.getD "" else true)

/-- Model of `AuthService.revoke_all_sessions` (`auth_service.py:380`): blacklist the
refresh token of every matching session, then mark them all revoked. -/
def revoke_all_sessions (st : Settings) (db : DB) (now : Nat) (userId : String)
    (excludeCurrent : Bool) (currentJti : Option String) : DB × List DbEvent :=
  let q := revokeAllQuery userId excludeCurrent currentJti
  let sessions := db.sessions.filter q
  let (db1, evs1) := blacklistLoop st now userId db sessions
  let revokedSessions :=
    updateMany q (fun s => { s with status := SessionStatus.revoked }) db1.sessions
  let db2 := { db1 with sessions := revokedSessions }
  (db2, evs1 ++ sessions.map fun s => DbEvent.sessionRevoked s.id s.refreshToken)

/-- Model of `AuthService.change_password` (`auth_service.py:87`): returns `False`
when the user does not exist, raises 400 when the old password does not
verify; on success stores the re-hashed password, then calls
`revoke_all_sessions(user_id, exclude_current=True)` — note the source never
supplies `current_jti` here. -/
def change_password (st : Settings) (db : DB) (now : Nat) (userId : String)
    (oldPassword newPassword : List Char) (salt : Nat) : OpResult Bool :=
  match get_user_by_id db userId with
  | none => ⟨db, [], .ok false⟩
  | some user =>
    if verify_password oldPassword user.hashedPassword = false then
      ⟨db, [], .error ⟨400, "Incorrect old password"⟩⟩
    else
      let rehashedUsers :=
        updateFirst (fun u => u.id == userId)
          (fun u => { u with hashedPassword := get_password_hash newPassword salt,
                             updatedAt := now }) db.users
      let db1 := { db with users := rehashedUsers }
      let (db2, evs) := revoke_all_sessions st db1 now userId true none
      ⟨db2, DbEvent.userWrite userId :: evs, .ok true⟩

/-- Model of `AuthService.logout` (`auth_service.py:346`): either blacklist-and-revoke
every active session of the user, or the single active session holding the
given refresh token (silently a no-op when none matches). -/
def logout (st : Settings) (db : DB) (now : Nat) (userId : String)
    (refreshToken : Option Token) (logoutAll : Bool) : DB × List DbEvent :=
  if logoutAll then
    let q := fun (s : Session) => s.userId == userId && s.status == SessionStatus.active
    let sessions := db.sessions.filter q
    let (db1, evs1) := blacklistLoop st now userId db sessions
    let revokedSessions :=
      updateMany q (fun s => { s with status := SessionStatus.revoked }) db1.sessions
    let db2 := { db1 with sessions := revokedSessions }
    (db2, evs1 ++ sessions.map fun s => DbEvent.sessionRevoked s.id s.refreshToken)
  else
    match refreshToken with
    | some tok =>
      match db.sessions.find? (fun s => s.refreshToken == tok && s.status == SessionStatus.active) with
      | some session =>
        let (db1, evs1) := blacklist_token st db now tok TokenType.refresh (some userId)
        let revokedSessions :=
          updateFirst (fun s => s.id == session.id)
            (fun s => { s with status := SessionStatus.revoked }) db1.sessions
        let db2 := { db1 with sessions := revokedSessions }
        (db2, evs1 ++ [DbEvent.sessionRevoked session.id session.refreshToken])
      | none => (db, [])
    | none => (db, [])

/-- Model of `AuthService.refresh_tokens` (`auth_service.py:258`): verify the refresh
token, find the matching active session by JTI, expire it (and fail 401) if
past its expiry, otherwise blacklist the presented token, mint a new pair
(with `remember_me=True` hard-coded) and rotate the session in place.
`newJti` is the fresh `secrets.token_hex(32)` of the new pair. -/
def refresh_tokens (st : Settings) (db : DB) (now : Nat) (refreshToken : Token)
    (newJti : String) : OpResult (Token × Token × String) :=
  match verify_token st db now refreshToken "refresh" with
  | none => ⟨db, [], .error ⟨401, "Invalid refresh token"⟩⟩
  | some payload =>
    let userId := payload.sub
    let jti := payload.jti
    if userId = "" ∨ jti = "" then
      ⟨db, [], .error ⟨401, "Invalid token payload"⟩⟩
    else
      match db.sessions.find? (fun s => s.sessionToken == jti && s.status == SessionStatus.active) with
      | none => ⟨db, [], .error ⟨401, "Session not found or revoked"⟩⟩
      | some session =>
        if session.expiresAt < now then
          let expiredSessions :=
            updateFirst (fun s => s.id == session.id)
              (fun s => { s with status := SessionStatus.expired }) db.sessions
          ⟨{ db with sessions := expiredSessions },
           [DbEvent.sessionExpired session.id session.refreshToken],
           .error ⟨401, "Session expired"⟩⟩
        else
          let (db1, evs1) := blacklist_token st db now refreshToken TokenType.refresh (some userId)
          let newPair := create_tokens st now userId true newJti
          let newAccessToken := newPair.1
          let newRefreshToken := newPair.2.1
          let rotatedSessions :=
            updateFirst (fun s => s.id == session.id)
              (fun s => { s with sessionToken := newJti,
                                 refreshToken := newRefreshToken,
                                 lastActive := now,
                                 expiresAt := now + st.REFRESH_TOKEN_EXPIRE_DAYS_LONG * 86400 })
              db1.sessions
          let db2 := { db1 with sessions := rotatedSessions }
          ⟨db2,
           evs1 ++ [DbEvent.sessionRotated session.id session.refreshToken newRefreshToken],
           .ok (newAccessToken, newRefreshToken, userId)⟩

/-- Substring test (`pat in s` on lowered strings): `splitOn` yields a
singleton exactly when the pattern does not occur. -/
def containsSub (s pat : String) : Bool :=
  (s.splitOn pat).length != 1

/-- Model of `AuthService.detect_platform` (`auth_service.py:428`). -/
def detect_platform (userAgent : String) : SessionPlatform :=
  let ua := userAgent.toLower
  if containsSub ua "mobile" then
    if containsSub ua "iphone" || containsSub ua "ipad" then SessionPlatform.ios
    else SessionPlatform.android
  else if containsSub ua "mozilla" || containsSub ua "chrome" || containsSub ua "safari" then
    SessionPlatform.web
  else SessionPlatform.desktop

/-- Model of `app/schemas/auth.py::LoginRequest`. -/
structure LoginRequest where
  email : String
  password : List Char
  rememberMe : Bool
  deviceId : Option String
  deviceName : Option String
deriving DecidableEq, Repr

/-- The parts of the FastAPI `Request` object the service reads. -/
structure Request where
  userAgent : String
  clientHost : Option String
deriving DecidableEq, Repr

/-- The `user_data` dictionary returned by `AuthService.login`. -/
structure LoginUserData where
  id : String
  email : String
  fullName : Option String
  role : String
  avatarUrl : Option String
  emailVerified : Bool
deriving DecidableEq, Repr

/-- Model of `AuthService.login` (`auth_service.py:113`): unknown email → 401;
inactive account → 403 (checked before the password); wrong password → 401
with the same message as unknown email; on success mint tokens with the
caller's `remember_me`, insert a session whose expiry is 30 or 7 days out,
and bump the user's login bookkeeping.  `jti` and `sessionOid` stand for the
fresh random JTI and the new session's ObjectId. -/
def login (st : Settings) (db : DB) (now : Nat) (loginData : LoginRequest)
    (req : Request) (jti : String) (sessionOid : Nat) :
    OpResult (Token × Token × LoginUserData) :=
  match get_user_by_email db loginData.email with
  | none => ⟨db, [], .error ⟨401, "Incorrect email or password"⟩⟩
  | some user =>
    if user.isActive = false then
      ⟨db, [], .error ⟨403, "Account is inactive"⟩⟩
    else if verify_password loginData.password user.hashedPassword = false then
      ⟨db, [], .error ⟨401, "Incorrect email or password"⟩⟩
    else
      let userAgent := req.userAgent
      let platform := detect_platform userAgent
      let pair := create_tokens st now user.id loginData.rememberMe jti
      let accessToken := pair.1
      let refreshToken := pair.2.1
      let newSession : Session :=
        { id := sessionOid, userId := user.id, sessionToken := pair.2.2,
          refreshToken := refreshToken, userAgent := userAgent.take 500,
          ipAddress := req.clientHost, platform := platform,
          deviceId := loginData.deviceId, deviceName := loginData.deviceName,
          status := SessionStatus.active, lastActive := now,
          expiresAt := now +
            (if loginData.rememberMe then st.REFRESH_TOKEN_EXPIRE_DAYS_LONG
             else st.REFRESH_TOKEN_EXPIRE_DAYS) * 86400,
          createdAt := now }
      let db1 := { db with sessions := db.sessions ++ [newSession] }
      let bumpedUsers :=
        updateFirst (fun u => u.id == user.id)
          (fun u => { u with lastLogin := some now, updatedAt := now,
                             loginCount := u.loginCount + 1 }) db1.users
      let db2 := { db1 with users := bumpedUsers }
      ⟨db2, [DbEvent.sessionInsert sessionOid, DbEvent.userWrite user.id],
       .ok (accessToken, refreshToken,
            { id := user.id, email := user.email, fullName := user.fullName,
              role := user.role, avatarUrl := user.avatarUrl,
              emailVerified := user.emailVerified })⟩

/-- Model of `app/schemas/auth.py::RegisterRequest`. -/
structure RegisterRequest where
  email : String
  password : List Char
  fullName : String
  username : Option String
  termsAccepted : Bool
  marketingEmails : Bool
deriving DecidableEq, Repr

/-- Model of `AuthService.create_user` (`auth_service.py:26`): duplicate email →
HTTP 400 "Email already registered"; a truthy username that is already taken
→ HTTP 400 "Username already taken"; otherwise insert the new user document
(defaults from `UserBase`/`UserInDB`) and fire the verification email
(store-neutral side effect, not modelled).  `oid` is the fresh ObjectId and
`salt` the bcrypt salt. -/
def create_user (db : DB) (now : Nat)
    (userData : RegisterRequest) (oid : String) (salt : Nat) :
    OpResult StoredUser :=
  if (db.users.find? fun u => u.email == userData.email).isSome then
    ⟨db, [], .error ⟨400, "Email already registered"⟩⟩
  else if optTruthy userData.username &&
      (db.users.find? fun u => u.username == userData.username).isSome then
    ⟨db, [], .error ⟨400, "Username already taken"⟩⟩
  else
    let newUser : StoredUser :=
      { id := oid, email := userData.email, username := userData.username,
        fullName := some userData.fullName, avatarUrl := none,
        role := "user", status := "pending_verification",
        hashedPassword := get_password_hash userData.password salt,
        isActive := true, emailVerified := false, lastLogin := none,
        loginCount := 0, createdAt := now, updatedAt := now }
    ⟨{ db with users := db.users ++ [newUser] },
     [DbEvent.userWrite oid], .ok newUser⟩

/-- The HTTP status the repository uses for its Conflict error kind
(`app/core/exceptions.py::ResourceAlreadyExistsException`,
`HTTP_409_CONFLICT`). -/
def conflictStatusCode : Nat := 409

/-- The refresh token an effect superseded, when the effect is a session
revocation or rotation. -/
def supersededTok : DbEvent → Option Token
  | .sessionRevoked _ t => some t
  | .sessionRotated _ t _ => some t
  | _ => none

/-- Ordering discipline over an effect log: wherever a session is revoked or
rotated away from a refresh token, a blacklist insert for that token occurs
strictly earlier in the log. -/
def blacklistedBeforeChange (evs : List DbEvent) : Prop :=
  ∀ pre ev post t, evs = pre ++ ev :: post → supersededTok ev = some t →
    DbEvent.blacklistInsert t ∈ pre

/-! Concrete scenario used by witnesses and counterexamples: one active user
`u1` (password `pwOld`) with two live sessions, one inactive user `u2`. -/

def st0 : Settings :=
  { APP_NAME := "DTC", SECRET_KEY := 42, ACCESS_TOKEN_EXPIRE_MINUTES := 15,
    REFRESH_TOKEN_EXPIRE_DAYS := 7, REFRESH_TOKEN_EXPIRE_DAYS_LONG := 30 }

def pwOld : List Char := ['O', 'l', 'd', 'p', 'a', 's', 's', '1']
def pwNew : List Char := ['N', 'e', 'w', 'p', 'a', 's', 's', '1']
def pwWrong : List Char := ['W', 'r', 'o', 'n', 'g', 'p', '1']

def user1 : StoredUser :=
  { id := "u1", email := "a@x.com", username := some "alice",
    fullName := some "Alice A", avatarUrl := none, role := "user",
    status := "active", hashedPassword := get_password_hash pwOld 5,
    isActive := true, emailVerified := true, lastLogin := none,
    loginCount := 0, createdAt := 0, updatedAt := 0 }

def userInactive : StoredUser :=
  { user1 with id := "u2", email := "b@x.com", username := some "bob",
               isActive := false }

def tokA : Token :=
  { sub := "u1", typ := "refresh", jti := "JA", exp := 10000000, iat := 0,
    iss := "DTC", key := 42 }

def tokB : Token := { tokA with jti := "JB" }

def sessA : Session :=
  { id := 1, userId := "u1", sessionToken := "JA", refreshToken := tokA,
    userAgent := "agentA", ipAddress := none, platform := SessionPlatform.web,
    deviceId := none, deviceName := none, status := SessionStatus.active,
    lastActive := 0, expiresAt := 5000000, createdAt := 0 }

def sessB : Session := { sessA with id := 2, sessionToken := "JB", refreshToken := tokB }

def db0 : DB :=
  { users := [user1, userInactive], sessions := [sessA, sessB], tokenBlacklist := [] }

def req0 : Request := { userAgent := "agent", clientHost := none }

/-! Helper lemmas. -/

theorem find?_isSome_of_mem {α : Type} {p : α → Bool} {a : α} {l : List α}
    (ha : a ∈ l) (hp : p a = true) : (l.find? p).isSome = true :=
  List.find?_isSome.2 ⟨a, ha, hp⟩

/-- If some element of `l` matches, `updateFirst p f l` contains the image of
a matching element of `l` under `f`. -/
theorem mem_updateFirst {α : Type} {p : α → Bool} {f : α → α} {l : List α}
    (h : ∃ x ∈ l, p x = true) :
    ∃ x, x ∈ l ∧ p x = true ∧ f x ∈ updateFirst p f l := by
  induction l with
  | nil => simp at h
  | cons y ys ih =>
    by_cases hy : p y = true
    · exact ⟨y, List.mem_cons_self y ys, hy, by simp [updateFirst, hy]⟩
    · obtain ⟨x, hx, hpx⟩ := h
      rcases List.mem_cons.1 hx with rfl | hx
      · exact absurd hpx hy
      · obtain ⟨x, hx, hpx, hfx⟩ := ih ⟨x, hx, hpx⟩
        refine ⟨x, List.mem_cons_of_mem _ hx, hpx, ?_⟩
        simp [updateFirst, hy, hfx]

theorem utf8Char_length_pos (c : Char) : 1 ≤ (utf8Char c).length := by
  unfold utf8Char
  split
  · simp
  · split
    · simp
    · split <;> simp

theorem utf8_append (a b : List Char) : utf8 (a ++ b) = utf8 a ++ utf8 b := by
  simp [utf8]

theorem length_le_utf8_length (l : List Char) : l.length ≤ (utf8 l).length := by
  induction l with
  | nil => simp [utf8]
  | cons c cs ih =>
    have hc := utf8Char_length_pos c
    simp only [utf8, List.map_cons, List.flatten_cons, List.length_append,
      List.length_cons] at ih ⊢
    omega

/-- Character-level truncation at 72 never discards bytes inside the first
72 bytes: each character is at least one byte wide. -/
theorem utf8_take_72 (l : List Char) :
    (utf8 (l.take 72)).take 72 = (utf8 l).take 72 := by
  by_cases hl : l.length ≤ 72
  · rw [List.take_of_length_le hl]
  · have hsplit : utf8 l = utf8 (l.take 72) ++ utf8 (l.drop 72) := by
      rw [← utf8_append, List.take_append_drop]
    have hlen : 72 ≤ (utf8 (l.take 72)).length := by
      have h1 := length_le_utf8_length (l.take 72)
      have h2 : (l.take 72).length = 72 := by
        rw [List.length_take]
        omega
      omega
    rw [hsplit, List.take_append_of_le_length hlen]

/-- The effective bcrypt input of `get_password_hash` is exactly the first
72 bytes of the UTF-8 encoded password. -/
theorem get_password_hash_eff (p : List Char) (salt : Nat) :
    get_password_hash p salt = { input := (utf8 p).take 72, salt := salt } := by
  unfold get_password_hash bcryptHash
  split
  · rw [utf8_take_72]
  · rfl

/-- C9: password hashing and verification depend only on the first 72 bytes
of the password.  The service truncates to 72 characters
(`get_password_hash`, `auth_service.py:82`) and the bcrypt backend truncates
to 72 bytes, so any two passwords agreeing on their first 72 UTF-8 bytes
produce the same stored hash (same salt) and are interchangeable in
verification against any stored hash. -/
theorem password_first_72_bytes_determine_hash (p q : List Char) (salt : Nat)
    (h : BHash) (hpq : (utf8 p).take 72 = (utf8 q).take 72) :
    get_password_hash p salt = get_password_hash q salt ∧
    verify_password p h = verify_password q h := by
  refine ⟨?_, ?_⟩
  · rw [get_password_hash_eff, get_password_hash_eff, hpq]
  · unfold verify_password bcryptVerify
    rw [hpq]

/-- Witness for C9: a 73-character password and a different one agreeing on
the first 72 bytes hash identically and verify identically. -/
theorem password_first_72_bytes_determine_hash_witness :
    (utf8 (List.replicate 73 'a')).take 72
      = (utf8 (List.replicate 72 'a' ++ ['b'])).take 72 ∧
    get_password_hash (List.replicate 73 'a') 5
      = get_password_hash (List.replicate 72 'a' ++ ['b']) 5 ∧
    verify_password (List.replicate 73 'a')
        (get_password_hash (List.replicate 72 'a' ++ ['b']) 5)
      = verify_password (List.replicate 72 'a' ++ ['b'])
          (get_password_hash (List.replicate 72 'a' ++ ['b']) 5) := by
  have h := password_first_72_bytes_determine_hash (List.replicate 73 'a')
    (List.replicate 72 'a' ++ ['b']) 5
    (get_password_hash (List.replicate 72 'a' ++ ['b']) 5) (by decide)
  exact ⟨by decide, h.1, h.2⟩

/-- C8: token verification is total (it is a Lean function returning
`Option`, mirroring the caught `JWTError`) and yields `none` on signature
mismatch, expiry in the past, or token-kind mismatch; and any blacklisted
token — in particular refresh and single-use tokens — verifies as `none`
even when its signature is valid and it is unexpired (the blacklist check is
unconditional in `verify_token`, `auth_service.py:236`). -/
theorem verify_token_total_invalid (st : Settings) (db : DB) (now : Nat)
    (tok : Token) (tokenType : String)
    (h : tok.key ≠ st.SECRET_KEY ∨ tok.exp < now ∨ tok.typ ≠ tokenType ∨
         ∃ e ∈ db.tokenBlacklist, e.token = tok) :
    verify_token st db now tok tokenType = none := by
  unfold verify_token jwtDecode
  rcases h with h | h | h | ⟨e, he, het⟩
  · rw [if_neg fun hc => h hc.1]
  · rw [if_neg fun hc => absurd hc.2 (Nat.not_le.2 h)]
  · by_cases hk : tok.key = st.SECRET_KEY ∧ now ≤ tok.exp
    · rw [if_pos hk]
      simp [h]
    · rw [if_neg hk]
  · by_cases hk : tok.key = st.SECRET_KEY ∧ now ≤ tok.exp
    · rw [if_pos hk]
      have hbl : (db.tokenBlacklist.find? fun x => x.token == tok).isSome = true :=
        find?_isSome_of_mem he (beq_iff_eq.2 het)
      simp [hbl]
    · rw [if_neg hk]

def dbBl : DB :=
  { db0 with tokenBlacklist := [blacklistEntryFor st0 100 tokA TokenType.refresh (some "u1")] }

/-- Witness for C8: `tokA` is validly signed and unexpired but blacklisted in
`dbBl`, and verification returns `none`. -/
theorem verify_token_total_invalid_witness :
    (tokA.key ≠ st0.SECRET_KEY ∨ tokA.exp < 100 ∨ tokA.typ ≠ "refresh" ∨
      ∃ e ∈ dbBl.tokenBlacklist, e.token = tokA) ∧
    verify_token st0 dbBl 100 tokA "refresh" = none := by
  refine ⟨by decide, verify_token_total_invalid st0 dbBl 100 tokA "refresh" (by decide)⟩

/-- C10: `login` checks `is_active` before the password
(`auth_service.py:117-133`): any stored user with `is_active = False` gets
403 "Account is inactive" whatever password is supplied, while an unknown
email gets 401 "Incorrect email or password" — so the two cases are
distinguishable without knowing any password. -/
theorem login_inactive_forbidden_before_password (st : Settings) (db : DB)
    (now : Nat) (ld ld' : LoginRequest) (req req' : Request) (j j' : String)
    (oid oid' : Nat) (u : StoredUser) :
    (get_user_by_email db ld.email = some u → u.isActive = false →
      (login st db now ld req j oid).result = .error ⟨403, "Account is inactive"⟩) ∧
    (get_user_by_email db ld'.email = none →
      (login st db now ld' req' j' oid').result
        = .error ⟨401, "Incorrect email or password"⟩) := by
  constructor
  · intro hu hia
    unfold login
    rw [hu]
    simp [hia]
  · intro hn
    unfold login
    rw [hn]

def ldInactiveWrong : LoginRequest :=
  { email := "b@x.com", password := pwWrong, rememberMe := false,
    deviceId := none, deviceName := none }

def ldUnknown : LoginRequest := { ldInactiveWrong with email := "nobody@x.com" }

def ldActiveWrong : LoginRequest := { ldInactiveWrong with email := "a@x.com" }

/-- Witness for C10: in `db0`, logging in as the inactive `u2` with a wrong
password yields 403, while an unknown email yields 401. -/
theorem login_inactive_forbidden_before_password_witness :
    (get_user_by_email db0 ldInactiveWrong.email = some userInactive ∧
      userInactive.isActive = false ∧
      (login st0 db0 100 ldInactiveWrong req0 "J9" 9).result
        = .error ⟨403, "Account is inactive"⟩) ∧
    (get_user_by_email db0 ldUnknown.email = none ∧
      (login st0 db0 100 ldUnknown req0 "J9" 9).result
        = .error ⟨401, "Incorrect email or password"⟩) := by
  have h := login_inactive_forbidden_before_password st0 db0 100 ldInactiveWrong
    ldUnknown req0 req0 "J9" "J9" 9 9 userInactive
  exact ⟨⟨by decide, by decide, h.1 (by decide) (by decide)⟩,
         ⟨by decide, h.2 (by decide)⟩⟩

/-- Counterexample for C4 as stated: with the inactive stored user `u2`, the
run with `u2`'s email and a non-verifying password fails 403
"Account is inactive", not the same Unauthorized error as the unknown-email
run — the two error kinds and messages differ. -/
theorem login_enumeration_counterexample :
    (login st0 db0 100 ldInactiveWrong req0 "J9" 9).result
      = .error ⟨403, "Account is inactive"⟩ ∧
    (login st0 db0 100 ldUnknown req0 "J9" 9).result
      = .error ⟨401, "Incorrect email or password"⟩ ∧
    (login st0 db0 100 ldInactiveWrong req0 "J9" 9).result
      ≠ (login st0 db0 100 ldUnknown req0 "J9" 9).result := by
  refine ⟨by decide, by decide, by decide⟩

/-- C4 (amended): for a stored *active* user, a login attempt with a
non-verifying password and a login attempt with an email not in the store
fail with the identical error: 401 Unauthorized,
"Incorrect email or password". -/
theorem login_no_enumeration_for_active_users (st : Settings) (db : DB)
    (now : Nat) (ld ld' : LoginRequest) (req req' : Request) (j j' : String)
    (oid oid' : Nat) (u : StoredUser)
    (h1 : get_user_by_email db ld.email = none)
    (h2 : get_user_by_email db ld'.email = some u)
    (h3 : u.isActive = true)
    (h4 : verify_password ld'.password u.hashedPassword = false) :
    (login st db now ld req j oid).result
      = .error ⟨401, "Incorrect email or password"⟩ ∧
    (login st db now ld' req' j' oid').result
      = .error ⟨401, "Incorrect email or password"⟩ := by
  constructor
  · unfold login
    rw [h1]
  · unfold login
    rw [h2]
    simp [h3, h4]

/-- Witness for the amended C4: unknown email vs the active `u1` with a
wrong password both yield 401 "Incorrect email or password" in `db0`. -/
theorem login_no_enumeration_for_active_users_witness :
    (get_user_by_email db0 ldUnknown.email = none ∧
     get_user_by_email db0 ldActiveWrong.email = some user1 ∧
     user1.isActive = true ∧
     verify_password ldActiveWrong.password user1.hashedPassword = false) ∧
    (login st0 db0 100 ldUnknown req0 "J9" 9).result
      = .error ⟨401, "Incorrect email or password"⟩ ∧
    (login st0 db0 100 ldActiveWrong req0 "J9" 9).result
      = .error ⟨401, "Incorrect email or password"⟩ := by
  have h := login_no_enumeration_for_active_users st0 db0 100 ldUnknown
    ldActiveWrong req0 req0 "J9" "J9" 9 9 user1 (by decide) (by decide)
    (by decide) (by decide)
  exact ⟨⟨by decide, by decide, by decide, by decide⟩, h.1, h.2⟩

def regDupEmail : RegisterRequest :=
  { email := "a@x.com", password := pwNew, fullName := "Dup",
    username := some "dup", termsAccepted := true, marketingEmails := false }

def regDupUsername : RegisterRequest :=
  { regDupEmail with email := "c@x.com", username := some "alice" }

/-- Counterexample for C6 as stated: registering the already-present email
`a@x.com` fails with HTTP 400 ("Email already registered"), whose status is
not the repository's Conflict status (409,
`ResourceAlreadyExistsException`). -/
theorem register_duplicate_email_counterexample :
    (create_user db0 100 regDupEmail "u9" 9).result
      = .error ⟨400, "Email already registered"⟩ ∧
    400 ≠ conflictStatusCode := by
  refine ⟨by decide, by decide⟩

/-- C6 (amended): a registration whose email is already stored fails with
HTTP 400 "Email already registered" (not a distinct 409 Conflict kind), a
registration with a fresh email but an already-taken truthy username fails
with HTTP 400 "Username already taken", and in both cases the store is left
unchanged — no user record is created. -/
theorem register_duplicate_rejected_400 (db : DB) (now now' : Nat)
    (ud ud' : RegisterRequest) (oid oid' : String) (salt salt' : Nat)
    (u u' : StoredUser) (un : String)
    (h1 : (db.users.find? fun x => x.email == ud.email) = some u)
    (h2 : (db.users.find? fun x => x.email == ud'.email) = none)
    (h3 : ud'.username = some un) (h4 : un ≠ "")
    (h5 : (db.users.find? fun x => x.username == ud'.username) = some u') :
    ((create_user db now ud oid salt).result
        = .error ⟨400, "Email already registered"⟩ ∧
      (create_user db now ud oid salt).db = db) ∧
    ((create_user db now' ud' oid' salt').result
        = .error ⟨400, "Username already taken"⟩ ∧
      (create_user db now' ud' oid' salt').db = db) := by
  constructor
  · unfold create_user
    rw [h1]
    exact ⟨rfl, rfl⟩
  · unfold create_user
    rw [h2]
    have htr : optTruthy ud'.username = true := by
      rw [h3]
      simp [optTruthy, h4]
    simp [htr, h5]

/-- Witness for the amended C6: in `db0`, re-registering `a@x.com` and
registering a fresh email with the taken username `alice` both fail with 400
and leave the store unchanged. -/
theorem register_duplicate_rejected_400_witness :
    ((db0.users.find? fun x => x.email == regDupEmail.email) = some user1 ∧
     (db0.users.find? fun x => x.email == regDupUsername.email) = none ∧
     regDupUsername.username = some "alice" ∧ "alice" ≠ "" ∧
     (db0.users.find? fun x => x.username == regDupUsername.username) = some user1) ∧
    ((create_user db0 100 regDupEmail "u9" 9).result
        = .error ⟨400, "Email already registered"⟩ ∧
      (create_user db0 100 regDupEmail "u9" 9).db = db0) ∧
    ((create_user db0 100 regDupUsername "u9" 9).result
        = .error ⟨400, "Username already taken"⟩ ∧
      (create_user db0 100 regDupUsername "u9" 9).db = db0) := by
  have h := register_duplicate_rejected_400 db0 100 100 regDupEmail
    regDupUsername "u9" "u9" 9 9 user1 user1 "alice" (by decide) (by decide)
    (by decide) (by decide) (by decide)
  exact ⟨⟨by decide, by decide, by decide, by decide, by decide⟩, h.1, h.2⟩

/-! Branch equations for `refresh_tokens`. -/

theorem verify_token_eq_some {st : Settings} {db : DB} {now : Nat}
    {tok p : Token} {tt : String} (h : verify_token st db now tok tt = some p) :
    p = tok ∧ tok.typ = tt := by
  unfold verify_token jwtDecode at h
  by_cases hk : tok.key = st.SECRET_KEY ∧ now ≤ tok.exp
  · rw [if_pos hk] at h
    dsimp only at h
    by_cases ht : tok.typ ≠ tt
    · simp [ht] at h
    · rw [if_neg ht] at h
      by_cases hb : (db.tokenBlacklist.find? fun e => e.token == tok).isSome = true
      · simp [hb] at h
      · rw [Bool.not_eq_true] at hb
        rw [if_neg (by simp [hb])] at h
        exact ⟨(Option.some.inj h).symm, not_not.1 ht⟩
  · rw [if_neg hk] at h
    cases h

theorem refresh_tokens_invalid_eq {st : Settings} {db : DB} {now : Nat}
    {tok : Token} (j : String)
    (hv : verify_token st db now tok "refresh" = none) :
    refresh_tokens st db now tok j
      = ⟨db, [], .error ⟨401, "Invalid refresh token"⟩⟩ := by
  unfold refresh_tokens
  rw [hv]

theorem refresh_tokens_badpayload_eq {st : Settings} {db : DB} {now : Nat}
    {tok p : Token} (j : String)
    (hv : verify_token st db now tok "refresh" = some p)
    (he : p.sub = "" ∨ p.jti = "") :
    refresh_tokens st db now tok j
      = ⟨db, [], .error ⟨401, "Invalid token payload"⟩⟩ := by
  unfold refresh_tokens
  rw [hv]
  dsimp only
  rw [if_pos he]

theorem refresh_tokens_nosession_eq {st : Settings} {db : DB} {now : Nat}
    {tok p : Token} (j : String)
    (hv : verify_token st db now tok "refresh" = some p)
    (he : ¬(p.sub = "" ∨ p.jti = ""))
    (hf : db.sessions.find?
        (fun s => s.sessionToken == p.jti && s.status == SessionStatus.active) = none) :
    refresh_tokens st db now tok j
      = ⟨db, [], .error ⟨401, "Session not found or revoked"⟩⟩ := by
  unfold refresh_tokens
  rw [hv]
  dsimp only
  rw [if_neg he, hf]

theorem refresh_tokens_expired_eq {st : Settings} {db : DB} {now : Nat}
    {tok p : Token} {session : Session} (j : String)
    (hv : verify_token st db now tok "refresh" = some p)
    (he : ¬(p.sub = "" ∨ p.jti = ""))
    (hf : db.sessions.find?
        (fun s => s.sessionToken == p.jti && s.status == SessionStatus.active) = some session)
    (hexp : session.expiresAt < now) :
    refresh_tokens st db now tok j
      = ⟨{ users := db.users,
           sessions := updateFirst (fun s => s.id == session.id)
             (fun s => { s with status := SessionStatus.expired }) db.sessions,
           tokenBlacklist := db.tokenBlacklist },
         [DbEvent.sessionExpired session.id session.refreshToken],
         .error ⟨401, "Session expired"⟩⟩ := by
  unfold refresh_tokens
  rw [hv]
  dsimp only
  rw [if_neg he, hf]
  dsimp only
  rw [if_pos hexp]

theorem refresh_tokens_success_eq {st : Settings} {db : DB} {now : Nat}
    {tok p : Token} {session : Session} (j : String)
    (hv : verify_token st db now tok "refresh" = some p)
    (he : ¬(p.sub = "" ∨ p.jti = ""))
    (hf : db.sessions.find?
        (fun s => s.sessionToken == p.jti && s.status == SessionStatus.active) = some session)
    (hexp : ¬ session.expiresAt < now) :
    refresh_tokens st db now tok j
      = ⟨{ users := db.users,
           sessions := updateFirst (fun s => s.id == session.id)
             (fun s => { s with sessionToken := j,
                                refreshToken := (create_tokens st now p.sub true j).2.1,
                                lastActive := now,
                                expiresAt := now + st.REFRESH_TOKEN_EXPIRE_DAYS_LONG * 86400 })
             db.sessions,
           tokenBlacklist := db.tokenBlacklist
             ++ [blacklistEntryFor st now tok TokenType.refresh (some p.sub)] },
         [DbEvent.blacklistInsert tok,
          DbEvent.sessionRotated session.id session.refreshToken
            (create_tokens st now p.sub true j).2.1],
         .ok ((create_tokens st now p.sub true j).1,
              (create_tokens st now p.sub true j).2.1, p.sub)⟩ := by
  unfold refresh_tokens
  rw [hv]
  dsimp only
  rw [if_neg he, hf]
  dsimp only
  rw [if_neg hexp]
  simp only [blacklist_token]
  rfl

/-- Inversion: a successful `refresh_tokens` call pins down every branch
condition and the returned values. -/
theorem refresh_tokens_ok_inv {st : Settings} {db : DB} {now : Nat}
    {tok : Token} {j : String} {a r : Token} {u : String}
    (h : (refresh_tokens st db now tok j).result = .ok (a, r, u)) :
    ∃ session,
      verify_token st db now tok "refresh" = some tok ∧
      ¬(tok.sub = "" ∨ tok.jti = "") ∧
      db.sessions.find?
        (fun s => s.sessionToken == tok.jti && s.status == SessionStatus.active) = some session ∧
      ¬ session.expiresAt < now ∧
      a = (create_tokens st now tok.sub true j).1 ∧
      r = (create_tokens st now tok.sub true j).2.1 ∧ u = tok.sub := by
  cases hv : verify_token st db now tok "refresh" with
  | none =>
    rw [refresh_tokens_invalid_eq j hv] at h
    cases h
  | some p =>
    obtain ⟨hp, _⟩ := verify_token_eq_some hv
    subst hp
    by_cases he : p.sub = "" ∨ p.jti = ""
    · rw [refresh_tokens_badpayload_eq j hv he] at h
      cases h
    · cases hf : db.sessions.find?
          (fun s => s.sessionToken == p.jti && s.status == SessionStatus.active) with
      | none =>
        rw [refresh_tokens_nosession_eq j hv he hf] at h
        cases h
      | some session =>
        by_cases hexp : session.expiresAt < now
        · rw [refresh_tokens_expired_eq j hv he hf hexp] at h
          cases h
        · rw [refresh_tokens_success_eq j hv he hf hexp] at h
          simp only [Except.ok.injEq, Prod.mk.injEq] at h
          obtain ⟨ha, hr, hu⟩ := h
          exact ⟨session, rfl, he, rfl, hexp, ha.symm, hr.symm, hu.symm⟩

/-- C2: refresh-token rotation — once `refresh_tokens` succeeds on a token,
any immediately following `refresh_tokens` with the same token fails 401:
the successful call blacklisted the token (`auth_service.py:300`), so
`verify_token` rejects it regardless of when the second call happens. -/
theorem refresh_token_single_use (st : Settings) (db : DB) (now now2 : Nat)
    (tok : Token) (j j2 : String) (a r : Token) (u : String)
    (h : (refresh_tokens st db now tok j).result = .ok (a, r, u)) :
    (refresh_tokens st (refresh_tokens st db now tok j).db now2 tok j2).result
      = .error ⟨401, "Invalid refresh token"⟩ := by
  obtain ⟨session, hv, he, hf, hexp, -, -, -⟩ := refresh_tokens_ok_inv h
  rw [refresh_tokens_success_eq j hv he hf hexp]
  dsimp only
  rw [refresh_tokens_invalid_eq j2 (verify_token_total_invalid st _ now2 tok "refresh"
    (Or.inr (Or.inr (Or.inr
      ⟨blacklistEntryFor st now tok TokenType.refresh (some tok.sub), by simp, rfl⟩))))]

def tokA2access : Token :=
  { sub := "u1", typ := "access", jti := "J2", exp := 1000, iat := 100,
    iss := "DTC", key := 42 }

def tokA2refresh : Token :=
  { sub := "u1", typ := "refresh", jti := "J2", exp := 2592100, iat := 100,
    iss := "DTC", key := 42 }

/-- Witness for C2: refreshing `tokA` in `db0` succeeds, and a second refresh
with `tokA` against the resulting store fails 401. -/
theorem refresh_token_single_use_witness :
    (refresh_tokens st0 db0 100 tokA "J2").result
      = .ok (tokA2access, tokA2refresh, "u1") ∧
    (refresh_tokens st0 (refresh_tokens st0 db0 100 tokA "J2").db 200 tokA "J3").result
      = .error ⟨401, "Invalid refresh token"⟩ := by
  refine ⟨by decide, refresh_token_single_use st0 db0 100 200 tokA "J2" "J3"
    tokA2access tokA2refresh "u1" (by decide)⟩

/-- C5: every successful refresh uses the long "remember-me" duration,
measured from the refresh time, both for the new refresh token's `exp`
(`create_tokens` is called with `remember_me=True` hard-coded,
`auth_service.py:305`) and for the rotated session's new `expires_at`
(`auth_service.py:315`), regardless of the original login's choice. -/
theorem refresh_always_long_expiry (st : Settings) (db : DB) (now : Nat)
    (tok : Token) (j : String) (a r : Token) (u : String)
    (h : (refresh_tokens st db now tok j).result = .ok (a, r, u)) :
    r.exp = now + st.REFRESH_TOKEN_EXPIRE_DAYS_LONG * 86400 ∧
    ∃ s ∈ (refresh_tokens st db now tok j).db.sessions,
      s.sessionToken = j ∧ s.refreshToken = r ∧
      s.expiresAt = now + st.REFRESH_TOKEN_EXPIRE_DAYS_LONG * 86400 := by
  obtain ⟨session, hv, he, hf, hexp, ha, hr, hu⟩ := refresh_tokens_ok_inv h
  constructor
  · rw [hr]
    rfl
  · rw [refresh_tokens_success_eq j hv he hf hexp]
    dsimp only
    obtain ⟨x, hx, hpx, hfx⟩ := @mem_updateFirst Session
      (fun s => s.id == session.id)
      (fun s => { s with sessionToken := j,
                         refreshToken := (create_tokens st now tok.sub true j).2.1,
                         lastActive := now,
                         expiresAt := now + st.REFRESH_TOKEN_EXPIRE_DAYS_LONG * 86400 })
      db.sessions
      ⟨session, List.mem_of_find?_eq_some hf, beq_self_eq_true session.id⟩
    exact ⟨_, hfx, rfl, hr.symm, rfl⟩

/-- Witness for C5: the refresh of `tokA` (a session created without
remember-me never being recorded either way) yields a refresh token and a
rotated session that both expire 30 days (`REFRESH_TOKEN_EXPIRE_DAYS_LONG`)
after the refresh. -/
theorem refresh_always_long_expiry_witness :
    (refresh_tokens st0 db0 100 tokA "J2").result
      = .ok (tokA2access, tokA2refresh, "u1") ∧
    tokA2refresh.exp = 100 + st0.REFRESH_TOKEN_EXPIRE_DAYS_LONG * 86400 ∧
    ∃ s ∈ (refresh_tokens st0 db0 100 tokA "J2").db.sessions,
      s.sessionToken = "J2" ∧ s.refreshToken = tokA2refresh ∧
      s.expiresAt = 100 + st0.REFRESH_TOKEN_EXPIRE_DAYS_LONG * 86400 := by
  have h := refresh_always_long_expiry st0 db0 100 tokA "J2" tokA2access
    tokA2refresh "u1" (by decide)
  exact ⟨by decide, h.1, h.2⟩

/-- C7: when the presented refresh token passes signature, kind and
blacklist checks but the matching active session's expiry is in the past,
`refresh_tokens` fails 401 "Session expired" and, as a side effect of the
failing call, marks that session expired (`auth_service.py:288-297`). -/
theorem refresh_expired_session_401 (st : Settings) (db : DB) (now : Nat)
    (tok : Token) (j : String) (session : Session)
    (hv : verify_token st db now tok "refresh" = some tok)
    (hsub : tok.sub ≠ "") (hjti : tok.jti ≠ "")
    (hf : db.sessions.find?
        (fun s => s.sessionToken == tok.jti && s.status == SessionStatus.active)
      = some session)
    (hexp : session.expiresAt < now) :
    (refresh_tokens st db now tok j).result = .error ⟨401, "Session expired"⟩ ∧
    ∃ s ∈ (refresh_tokens st db now tok j).db.sessions,
      s.id = session.id ∧ s.status = SessionStatus.expired := by
  have he : ¬(tok.sub = "" ∨ tok.jti = "") := fun hc => hc.elim hsub hjti
  rw [refresh_tokens_expired_eq j hv he hf hexp]
  refine ⟨rfl, ?_⟩
  dsimp only
  obtain ⟨x, hx, hpx, hfx⟩ := @mem_updateFirst Session
    (fun s => s.id == session.id)
    (fun s => { s with status := SessionStatus.expired })
    db.sessions
    ⟨session, List.mem_of_find?_eq_some hf, beq_self_eq_true session.id⟩
  exact ⟨_, hfx, beq_iff_eq.1 hpx, rfl⟩

def sessExpired : Session := { sessA with expiresAt := 50 }

def dbExp : DB := { db0 with sessions := [sessExpired] }

/-- Witness for C7: `tokA` verifies against `dbExp` but its session expired
at time 50; refreshing at time 100 fails 401 "Session expired" and the
stored session becomes expired. -/
theorem refresh_expired_session_401_witness :
    (verify_token st0 dbExp 100 tokA "refresh" = some tokA ∧
     tokA.sub ≠ "" ∧ tokA.jti ≠ "" ∧
     dbExp.sessions.find?
        (fun s => s.sessionToken == tokA.jti && s.status == SessionStatus.active)
       = some sessExpired ∧
     sessExpired.expiresAt < 100) ∧
    (refresh_tokens st0 dbExp 100 tokA "J2").result
      = .error ⟨401, "Session expired"⟩ ∧
    ∃ s ∈ (refresh_tokens st0 dbExp 100 tokA "J2").db.sessions,
      s.id = sessExpired.id ∧ s.status = SessionStatus.expired := by
  have h := refresh_expired_session_401 st0 dbExp 100 tokA "J2" sessExpired
    (by decide) (by decide) (by decide) (by decide) (by decide)
  exact ⟨⟨by decide, by decide, by decide, by decide, by decide⟩, h.1, h.2⟩

/-- C1 (code bug): in `db0` the user `u1` is logged in through `sessA`
(JTI "JA", refresh token `tokA`) and also has `sessB`.  `change_password`
with the correct old password succeeds, but it calls
`revoke_all_sessions(user_id, exclude_current=True)` without a
`current_jti` (`auth_service.py:107`), and the exclusion clause requires
both (`auth_service.py:387`), so the acting session `sessA` is revoked and
its token blacklisted too — `tokA` is no longer usable for refresh,
contradicting the documented "all sessions except the current one". -/
theorem change_password_revokes_acting_session :
    (change_password st0 db0 100 "u1" pwOld pwNew 7).result = .ok true ∧
    ((change_password st0 db0 100 "u1" pwOld pwNew 7).db.sessions.map Session.status)
      = [SessionStatus.revoked, SessionStatus.revoked] ∧
    DbEvent.blacklistInsert tokA
      ∈ (change_password st0 db0 100 "u1" pwOld pwNew 7).events ∧
    (refresh_tokens st0 (change_password st0 db0 100 "u1" pwOld pwNew 7).db
        100 tokA "J4").result = .error ⟨401, "Invalid refresh token"⟩ := by
  refine ⟨by decide, by decide, by decide, by decide⟩

/-! Machinery for C3: every event log emitted by a revoking or rotating
operation blacklists the superseded refresh token strictly before the
session-state change. -/

theorem blacklistedBeforeChange_nil : blacklistedBeforeChange [] := by
  intro pre ev post t hsplit hst
  exact absurd hsplit.symm (by simp)

theorem blacklistedBeforeChange_blocks (A B : List DbEvent)
    (hA : ∀ e ∈ A, supersededTok e = none)
    (hB : ∀ e ∈ B, ∀ t, supersededTok e = some t → DbEvent.blacklistInsert t ∈ A) :
    blacklistedBeforeChange (A ++ B) := by
  intro pre ev post t hsplit hst
  rcases List.append_eq_append_iff.1 hsplit with ⟨a2, hpre, hB2⟩ | ⟨c2, hA2, hcons⟩
  · have hevB : ev ∈ B := by
      rw [hB2]
      exact List.mem_append.2 (Or.inr (List.mem_cons_self _ _))
    rw [hpre]
    exact List.mem_append_left _ (hB ev hevB t hst)
  · cases c2 with
    | nil =>
      rw [List.append_nil] at hA2
      have hevB : ev ∈ B := by
        rw [List.nil_append] at hcons
        rw [← hcons]
        exact List.mem_cons_self _ _
      rw [hA2] at hB
      exact hB ev hevB t hst
    | cons e c3 =>
      simp only [List.cons_append] at hcons
      have hev : ev = e := (List.cons.inj hcons).1
      have heA : e ∈ A := by
        rw [hA2]
        exact List.mem_append.2 (Or.inr (List.mem_cons_self _ _))
      rw [hev, hA e heA] at hst
      cases hst

theorem blacklistedBeforeChange_single (e : DbEvent)
    (he : supersededTok e = none) : blacklistedBeforeChange [e] := by
  have h := blacklistedBeforeChange_blocks [e] []
    (by intro x hx; rw [List.mem_singleton.1 hx]; exact he)
    (by intro x hx; cases hx)
  simpa using h

/-- A blacklist-inserts block followed by the matching revocations block is
correctly ordered. -/
theorem blacklistedBeforeChange_revoke_block (ss : List Session) :
    blacklistedBeforeChange
      ((ss.map fun s => DbEvent.blacklistInsert s.refreshToken)
        ++ (ss.map fun s => DbEvent.sessionRevoked s.id s.refreshToken)) := by
  apply blacklistedBeforeChange_blocks
  · intro e hx
    obtain ⟨s, -, rfl⟩ := List.mem_map.1 hx
    rfl
  · intro e hx t ht
    obtain ⟨s, hs, rfl⟩ := List.mem_map.1 hx
    have hts : t = s.refreshToken := (Option.some.inj ht).symm
    rw [hts]
    exact List.mem_map_of_mem _ hs

theorem blacklistLoop_events (st : Settings) (now : Nat) (userId : String)
    (db : DB) (ss : List Session) :
    (blacklistLoop st now userId db ss).2
      = ss.map fun s => DbEvent.blacklistInsert s.refreshToken := by
  induction ss generalizing db with
  | nil => rfl
  | cons s rest ih => simp [blacklistLoop, blacklist_token, ih]

theorem refresh_events_ordered (st : Settings) (db : DB) (now : Nat)
    (tok : Token) (newJti : String)
    (hwf : ∀ s ∈ db.sessions, s.sessionToken = tok.jti → s.refreshToken = tok) :
    blacklistedBeforeChange (refresh_tokens st db now tok newJti).events := by
  cases hv : verify_token st db now tok "refresh" with
  | none =>
    rw [refresh_tokens_invalid_eq newJti hv]
    exact blacklistedBeforeChange_nil
  | some p =>
    obtain ⟨hp, -⟩ := verify_token_eq_some hv
    subst hp
    by_cases he : p.sub = "" ∨ p.jti = ""
    · rw [refresh_tokens_badpayload_eq newJti hv he]
      exact blacklistedBeforeChange_nil
    · cases hf : db.sessions.find?
          (fun s => s.sessionToken == p.jti && s.status == SessionStatus.active) with
      | none =>
        rw [refresh_tokens_nosession_eq newJti hv he hf]
        exact blacklistedBeforeChange_nil
      | some session =>
        by_cases hexp : session.expiresAt < now
        · rw [refresh_tokens_expired_eq newJti hv he hf hexp]
          exact blacklistedBeforeChange_single _ rfl
        · rw [refresh_tokens_success_eq newJti hv he hf hexp]
          have hsr : session.refreshToken = p := by
            have hps := List.find?_some hf
            rw [Bool.and_eq_true] at hps
            exact hwf session (List.mem_of_find?_eq_some hf) (beq_iff_eq.1 hps.1)
          have h := blacklistedBeforeChange_blocks
            [DbEvent.blacklistInsert p]
            [DbEvent.sessionRotated session.id session.refreshToken
              (create_tokens st now p.sub true newJti).2.1]
            (by intro x hx; rw [List.mem_singleton.1 hx]; rfl)
            (by
              intro x hx t ht
              rw [List.mem_singleton.1 hx] at ht
              have hts : t = session.refreshToken := (Option.some.inj ht).symm
              rw [hts, hsr]
              exact List.mem_singleton_self _)
          simpa using h

theorem logout_events_ordered (st : Settings) (db : DB) (now : Nat)
    (uid : String) (rtok : Option Token) (lall : Bool) :
    blacklistedBeforeChange (logout st db now uid rtok lall).2 := by
  unfold logout
  by_cases hl : lall = true
  · rw [if_pos hl]
    dsimp only
    rw [blacklistLoop_events]
    exact blacklistedBeforeChange_revoke_block _
  · rw [if_neg hl]
    cases rtok with
    | none => exact blacklistedBeforeChange_nil
    | some tok =>
      dsimp only
      cases hf : db.sessions.find?
          (fun s => s.refreshToken == tok && s.status == SessionStatus.active) with
      | none => exact blacklistedBeforeChange_nil
      | some session =>
        dsimp only
        have hsr : session.refreshToken = tok := by
          have hps := List.find?_some hf
          rw [Bool.and_eq_true] at hps
          exact beq_iff_eq.1 hps.1
        have h := blacklistedBeforeChange_blocks
          [DbEvent.blacklistInsert tok]
          [DbEvent.sessionRevoked session.id session.refreshToken]
          (by intro x hx; rw [List.mem_singleton.1 hx]; rfl)
          (by
            intro x hx t ht
            rw [List.mem_singleton.1 hx] at ht
            have hts : t = session.refreshToken := (Option.some.inj ht).symm
            rw [hts, hsr]
            exact List.mem_singleton_self _)
        simpa [blacklist_token] using h

theorem revoke_all_events_ordered (st : Settings) (db : DB) (now : Nat)
    (uid : String) (excl : Bool) (cjti : Option String) :
    blacklistedBeforeChange (revoke_all_sessions st db now uid excl cjti).2 := by
  unfold revoke_all_sessions
  dsimp only
  rw [blacklistLoop_events]
  exact blacklistedBeforeChange_revoke_block _

/-- C3: in each operation that revokes or rotates sessions
(`refresh_tokens`, `logout` in either mode, `revoke_all_sessions` — the
latter also covering `change_password`), every session-state change appears
in the operation's effect log strictly after a blacklist insert for the
superseded refresh token.  For `refresh_tokens` the store is assumed
consistent: a session keyed by the presented token's JTI stores that token
(always true of stores produced by `login`/`refresh_tokens`). -/
theorem revocation_written_before_session_change (st : Settings) (db : DB)
    (now : Nat) (tok : Token) (newJti : String) (uid : String)
    (rtok : Option Token) (lall excl : Bool) (cjti : Option String)
    (hwf : ∀ s ∈ db.sessions, s.sessionToken = tok.jti → s.refreshToken = tok) :
    blacklistedBeforeChange (refresh_tokens st db now tok newJti).events ∧
    blacklistedBeforeChange (logout st db now uid rtok lall).2 ∧
    blacklistedBeforeChange (revoke_all_sessions st db now uid excl cjti).2 :=
  ⟨refresh_events_ordered st db now tok newJti hwf,
   logout_events_ordered st db now uid rtok lall,
   revoke_all_events_ordered st db now uid excl cjti⟩

/-- Witness for C3 at the concrete store `db0`. -/
theorem revocation_written_before_session_change_witness :
    (∀ s ∈ db0.sessions, s.sessionToken = tokA.jti → s.refreshToken = tokA) ∧
    blacklistedBeforeChange (refresh_tokens st0 db0 100 tokA "J2").events ∧
    blacklistedBeforeChange (logout st0 db0 100 "u1" (some tokA) false).2 ∧
    blacklistedBeforeChange (revoke_all_sessions st0 db0 100 "u1" false none).2 := by
  have h := revocation_written_before_session_change st0 db0 100 tokA "J2" "u1"
    (some tokA) false false none (by decide)
  exact ⟨by decide, h.1, h.2.1, h.2.2⟩

end Auth
